import Mathlib

/-!
Verification of the volatility-adaptive spread engine
(Solidity contract VolatilitySpreadCalculator + ChainlinkVolatilityLib,
TypeScript VolatilitySpreadExtension codec).

The Solidity code is embedded shallowly: uint256 values are natural
numbers, unchecked EVM operations (solady rawAdd / rawSub) reduce
modulo 2^256, solady mulDiv fails on division by zero or on a result
that does not fit in 256 bits, and Solidity 0.8 checked arithmetic
fails with an arithmetic panic on overflow or underflow.  Reverting
calls are modelled with Except: an error result means the whole call
aborts and the caller observes no state change.
-/

/-- 2^256, the size of the EVM word. -/
def UINT256 : Nat := 2 ^ 256

/-- Revert reasons of the embedded Solidity code.  Checked-arithmetic
panics are split into an overflow and an underflow constructor so that
reachability of the underflow branch can be stated. -/
inductive EvmError where
  | TokenNotSupported
  | InvalidVolatility
  | StaleVolatilityData
  | SpreadTooHigh
  | InvalidParam
  | MulDivFailed
  | ArithmeticOverflow
  | ArithmeticUnderflow
deriving DecidableEq

instance : DecidableEq (Except EvmError Nat) := fun a b =>
  match a, b with
  | .ok x, .ok y =>
      if h : x = y then isTrue (by rw [h]) else isFalse (by simp [h])
  | .error e, .error f =>
      if h : e = f then isTrue (by rw [h]) else isFalse (by simp [h])
  | .ok _, .error _ => isFalse (by simp)
  | .error _, .ok _ => isFalse (by simp)

/-- solady FixedPointMathLib.mulDiv: floor(x*y/d) computed with full
512-bit intermediate precision; reverts when d = 0 or when the result
does not fit in a uint256. -/
def mulDiv (x y d : Nat) : Except EvmError Nat :=
  if d = 0 then .error .MulDivFailed
  else if x * y / d < UINT256 then .ok (x * y / d)
  else .error .MulDivFailed

/-- solady FixedPointMathLib.rawAdd: unchecked uint256 addition (wraps). -/
def rawAdd (x y : Nat) : Nat := (x + y) % UINT256

/-- solady FixedPointMathLib.rawSub: unchecked uint256 subtraction (wraps).
The operands are uint256 values, so y is at most 2^256. -/
def rawSub (x y : Nat) : Nat := (x + UINT256 - y) % UINT256

/-- Solidity 0.8 checked addition: reverts (panic 0x11) on overflow. -/
def checkedAdd (x y : Nat) : Except EvmError Nat :=
  if x + y < UINT256 then .ok (x + y) else .error .ArithmeticOverflow

/-- Solidity 0.8 checked multiplication: reverts (panic 0x11) on overflow. -/
def checkedMul (x y : Nat) : Except EvmError Nat :=
  if x * y < UINT256 then .ok (x * y) else .error .ArithmeticOverflow

/-- Solidity 0.8 checked subtraction: reverts (panic 0x11) on underflow. -/
def checkedSub (x y : Nat) : Except EvmError Nat :=
  if y ≤ x then .ok (x - y) else .error .ArithmeticUnderflow

/-- VolatilitySpreadCalculator.SpreadParams.  volatilityWindow is a uint8
(0 = 24h, 1 = 7d, 2 = blended). -/
structure SpreadParams where
  baseSpreadBps : Nat
  volatilityMultiplier : Nat
  maxSpreadBps : Nat
  volatilityWindow : Nat
  useTargetToken : Bool
deriving DecidableEq

/-- Constant BASIS_POINTS of VolatilitySpreadCalculator. -/
def BASIS_POINTS : Nat := 10000

/-- Constant MAX_SPREAD of VolatilitySpreadCalculator. -/
def MAX_SPREAD : Nat := 1000

/-- VolatilitySpreadCalculator._calculateDynamicSpread:
volatilityPct = currentVolatility / 100,
volatilityImpact = volatilityPct.mulDiv(volatilityMultiplier, 100),
dynamicSpread = baseSpreadBps.rawAdd(volatilityImpact),
result = dynamicSpread.min(maxSpreadBps). -/
def calculateDynamicSpread (baseSpreadBps volatilityMultiplier maxSpreadBps
    currentVolatility : Nat) : Except EvmError Nat := do
  let volatilityPct := currentVolatility / 100
  let volatilityImpact ← mulDiv volatilityPct volatilityMultiplier 100
  let dynamicSpread := rawAdd baseSpreadBps volatilityImpact
  return min dynamicSpread maxSpreadBps

/-- The dynamic-spread formula exactly as the specification words it:
plain unbounded-integer arithmetic with truncating division, no
256-bit reduction anywhere. -/
def dynamicSpreadSpec (baseSpreadBps volatilityMultiplier maxSpreadBps
    currentVolatility : Nat) : Nat :=
  min (baseSpreadBps + currentVolatility / 100 * volatilityMultiplier / 100) maxSpreadBps

/-- ChainlinkVolatilityLib constant STABLECOIN_VOLATILITY (1%). -/
def STABLECOIN_VOLATILITY : Nat := 100

/-- ChainlinkVolatilityLib constant DEFAULT_VOLATILITY (30%). -/
def DEFAULT_VOLATILITY : Nat := 3000

/-- ChainlinkVolatilityLib constant MAX_STALENESS (1 hour). -/
def MAX_STALENESS : Nat := 3600

/-- ChainlinkVolatilityLib constant VOLATILITY_SCALE (basis points). -/
def VOLATILITY_SCALE : Nat := 10000

/-- ChainlinkVolatilityLib.TokenConfig.  The price feed is identified by
its address; a missing mapping entry is the all-zero record, in
particular isSupported = false. -/
structure TokenConfig where
  priceFeed : Nat
  volatilityOverride : Nat
  isStablecoin : Bool
  isSupported : Bool
deriving DecidableEq

/-- The zero-initialized TokenConfig a Solidity mapping returns for an
unconfigured token. -/
def emptyTokenConfig : TokenConfig :=
  { priceFeed := 0, volatilityOverride := 0, isStablecoin := false, isSupported := false }

/-- ChainlinkVolatilityLib.PriceHistory.  The fixed-size Solidity arrays
uint256[24] and uint256[7] are lists read with getD (a slot outside the
list reads as the zero the array is initialized with). -/
structure PriceHistory where
  hourlyPrices : List Nat
  dailyPrices : List Nat
  lastHourlyUpdate : Nat
  lastDailyUpdate : Nat
  hourlyIndex : Nat
  dailyIndex : Nat
deriving DecidableEq

/-- The zero-initialized PriceHistory of a token never updated. -/
def emptyPriceHistory : PriceHistory :=
  { hourlyPrices := List.replicate 24 0, dailyPrices := List.replicate 7 0,
    lastHourlyUpdate := 0, lastDailyUpdate := 0, hourlyIndex := 0, dailyIndex := 0 }

/-- ChainlinkVolatilityLib.VolatilityStorage: the two per-token mappings. -/
structure VolatilityStorage where
  tokenConfigs : Nat → TokenConfig
  priceHistories : Nat → PriceHistory

/-- The adjacent pairs (prices[i-1], prices[i]) for i = 1 .. count-1
visited by the loop in _calculateVolatilityFromPrices. -/
def adjPairs (prices : List Nat) (count : Nat) : List (Nat × Nat) :=
  (prices.take count).zip ((prices.take count).drop 1)

/-- One loop iteration body of _calculateVolatilityFromPrices: the
absolute percentage move of the pair in basis points,
return_ = prices[i].mulDiv(VOLATILITY_SCALE, prices[i-1]) folded with
the branch subtracting VOLATILITY_SCALE on the larger side. -/
def pairReturn (prev cur : Nat) : Except EvmError Nat := do
  let r ← mulDiv cur VOLATILITY_SCALE prev
  if r > VOLATILITY_SCALE then return r - VOLATILITY_SCALE
  else return VOLATILITY_SCALE - r

/-- The accumulation loop of _calculateVolatilityFromPrices over the
adjacent pairs: accumulates (sumReturns, sumSquaredReturns,
validSamples), skipping pairs containing a zero slot; the two sums use
Solidity 0.8 checked arithmetic. -/
def volFold : List (Nat × Nat) → Nat × Nat × Nat → Except EvmError (Nat × Nat × Nat)
  | [], acc => .ok acc
  | (prev, cur) :: rest, acc =>
      if cur = 0 ∨ prev = 0 then volFold rest acc
      else do
        let r ← pairReturn prev cur
        let sumReturns ← checkedAdd acc.1 r
        let sq ← checkedMul r r
        let sumSquaredReturns ← checkedAdd acc.2.1 sq
        volFold rest (sumReturns, sumSquaredReturns, acc.2.2 + 1)

/-- ChainlinkVolatilityLib._calculateVolatilityFromPrices (the
uint256[24] overload): accumulate returns over adjacent non-zero pairs,
then variance = sumSquaredReturns / validSamples - meanReturn^2 with
checked arithmetic, and the integer square root as the result. -/
def calculateVolatilityFromPrices (prices : List Nat) (count : Nat) :
    Except EvmError Nat :=
  if count < 2 then .ok DEFAULT_VOLATILITY
  else do
    let acc ← volFold (adjPairs prices count) (0, 0, 0)
    let sumReturns := acc.1
    let sumSquaredReturns := acc.2.1
    let validSamples := acc.2.2
    if validSamples < 2 then return DEFAULT_VOLATILITY
    else
      let meanReturn := sumReturns / validSamples
      let meanSq ← checkedMul meanReturn meanReturn
      let variance ← checkedSub (sumSquaredReturns / validSamples) meanSq
      return Nat.sqrt variance

/-- ChainlinkVolatilityLib._calculateVolatilityFromPrices (the
uint256[7] overload).  The source body is a stub: the comment says
"Similar logic for 7-day array / Implementation details omitted for
brevity" and it returns DEFAULT_VOLATILITY unconditionally. -/
def calculateVolatilityFromDailyPrices (_prices : List Nat) (_count : Nat) :
    Except EvmError Nat :=
  .ok DEFAULT_VOLATILITY

/-- ChainlinkVolatilityLib._calculate24hVolatility. -/
def calculate24hVolatility (self : VolatilityStorage) (token : Nat) :
    Except EvmError Nat :=
  let history := self.priceHistories token
  if history.lastHourlyUpdate = 0 then .ok DEFAULT_VOLATILITY
  else calculateVolatilityFromPrices history.hourlyPrices 24

/-- ChainlinkVolatilityLib._calculate7dVolatility: the (stubbed) daily
figure annualized with dailyVol.mulDiv(1910, 100). -/
def calculate7dVolatility (self : VolatilityStorage) (token : Nat) :
    Except EvmError Nat :=
  let history := self.priceHistories token
  if history.lastDailyUpdate = 0 then .ok DEFAULT_VOLATILITY
  else do
    let dailyVol ← calculateVolatilityFromDailyPrices history.dailyPrices 7
    mulDiv dailyVol 1910 100

/-- ChainlinkVolatilityLib.getTokenVolatility: unsupported tokens fail,
a positive manual override wins, stablecoins get the fixed constant,
otherwise the window selects the ring computation (2 = blended
(vol24h * 70 + vol7d * 30) / 100 with checked arithmetic). -/
def getTokenVolatility (self : VolatilityStorage) (token : Nat) (window : Nat) :
    Except EvmError Nat :=
  let config := self.tokenConfigs token
  if !config.isSupported then .error .TokenNotSupported
  else if config.volatilityOverride > 0 then .ok config.volatilityOverride
  else if config.isStablecoin then .ok STABLECOIN_VOLATILITY
  else if window = 0 then calculate24hVolatility self token
  else if window = 1 then calculate7dVolatility self token
  else do
    let vol24h ← calculate24hVolatility self token
    let vol7d ← calculate7dVolatility self token
    let a ← checkedMul vol24h 70
    let b ← checkedMul vol7d 30
    let s ← checkedAdd a b
    return s / 100

/-- IOrderMixin.Order.  Address-typed fields are the underlying uint256
values. -/
structure Order where
  salt : Nat
  maker : Nat
  receiver : Nat
  makerAsset : Nat
  takerAsset : Nat
  makingAmount : Nat
  takingAmount : Nat
  makerTraits : Nat
deriving DecidableEq

/-- VolatilitySpreadCalculator.getTakingAmount.  The extraData argument
is modelled by the SpreadParams it abi-decodes to (abi.decode accepts
any 160-byte head with a uint8 third word below 256 and a boolean word
in {0,1}, with no range validation of the three uint256 fields).  The
unused extension / orderHash / taker / remainingMakingAmount arguments
are dropped. -/
def getTakingAmount (st : VolatilityStorage) (order : Order) (makingAmount : Nat)
    (params : SpreadParams) : Except EvmError Nat := do
  let targetToken := if params.useTargetToken then order.makerAsset else order.takerAsset
  let currentVolatility ← getTokenVolatility st targetToken params.volatilityWindow
  let dynamicSpread ← calculateDynamicSpread params.baseSpreadBps
      params.volatilityMultiplier params.maxSpreadBps currentVolatility
  let originalTakingAmount ← mulDiv makingAmount order.takingAmount order.makingAmount
  let fee ← mulDiv originalTakingAmount dynamicSpread BASIS_POINTS
  return rawAdd originalTakingAmount fee

/-- VolatilitySpreadCalculator.getMakingAmount, symmetric to
getTakingAmount but subtracting the spread with the unchecked rawSub. -/
def getMakingAmount (st : VolatilityStorage) (order : Order) (takingAmount : Nat)
    (params : SpreadParams) : Except EvmError Nat := do
  let targetToken := if params.useTargetToken then order.makerAsset else order.takerAsset
  let currentVolatility ← getTokenVolatility st targetToken params.volatilityWindow
  let dynamicSpread ← calculateDynamicSpread params.baseSpreadBps
      params.volatilityMultiplier params.maxSpreadBps currentVolatility
  let originalMakingAmount ← mulDiv takingAmount order.makingAmount order.takingAmount
  let fee ← mulDiv originalMakingAmount dynamicSpread BASIS_POINTS
  return rawSub originalMakingAmount fee

/-- Big-endian byte encoding of a natural number on k bytes (the
fixed-width fields of the wire format). -/
def beBytes : Nat → Nat → List Nat
  | 0, _ => []
  | k + 1, n => beBytes k (n / 256) ++ [n % 256]

/-- Value of a big-endian byte string. -/
def fromBytes (l : List Nat) : Nat := l.foldl (fun acc b => acc * 256 + b) 0

/-- The abi.encode image of a SpreadParams value: five 32-byte words
(three uint256 fields, the uint8 window, the bool flag), exactly what
both VolatilitySpreadCalculator.encodeSpreadParams and the second
(abi-coder) revision of buildAmountGetterData emit. -/
def abiEncodeSpreadParams (p : SpreadParams) : List Nat :=
  beBytes 32 p.baseSpreadBps ++ beBytes 32 p.volatilityMultiplier ++
    beBytes 32 p.maxSpreadBps ++ beBytes 32 p.volatilityWindow ++
    beBytes 32 (if p.useTargetToken then 1 else 0)

/-- VolatilitySpreadCalculator.encodeSpreadParams: validates the fields
(base and max against MAX_SPREAD, multiplier against 1000, window
against 2) and abi-encodes the struct. -/
def encodeSpreadParams (baseSpreadBps volatilityMultiplier maxSpreadBps
    volatilityWindow : Nat) (useTargetToken : Bool) : Except EvmError (List Nat) :=
  if baseSpreadBps > MAX_SPREAD then .error .SpreadTooHigh
  else if maxSpreadBps > MAX_SPREAD then .error .SpreadTooHigh
  else if volatilityMultiplier > 1000 then .error .InvalidParam
  else if volatilityWindow > 2 then .error .InvalidParam
  else .ok (abiEncodeSpreadParams
    { baseSpreadBps := baseSpreadBps, volatilityMultiplier := volatilityMultiplier,
      maxSpreadBps := maxSpreadBps, volatilityWindow := volatilityWindow,
      useTargetToken := useTargetToken })

/-- A Chainlink latestRoundData answer: the int256 price and the
updatedAt timestamp. -/
structure FeedData where
  price : Int
  updatedAt : Nat
deriving DecidableEq

/-- The hourly-ring block of ChainlinkVolatilityLib.updatePriceHistory:
write the slot at the cursor, advance the cursor modulo 24 and stamp
lastHourlyUpdate, but only if at least 1 hour (3600 s) has passed. -/
def hourlyStep (history : PriceHistory) (ts currentPrice : Nat) : PriceHistory :=
  if ts ≥ history.lastHourlyUpdate + 3600 then
    { history with
      hourlyPrices := history.hourlyPrices.set history.hourlyIndex currentPrice,
      hourlyIndex := (history.hourlyIndex + 1) % 24,
      lastHourlyUpdate := ts }
  else history

/-- The daily-ring block of ChainlinkVolatilityLib.updatePriceHistory:
same gating with 1 day (86400 s) and a 7-slot ring. -/
def dailyStep (history : PriceHistory) (ts currentPrice : Nat) : PriceHistory :=
  if ts ≥ history.lastDailyUpdate + 86400 then
    { history with
      dailyPrices := history.dailyPrices.set history.dailyIndex currentPrice,
      dailyIndex := (history.dailyIndex + 1) % 7,
      lastDailyUpdate := ts }
  else history

/-- The body of the loop in ChainlinkVolatilityLib.updatePriceHistory
for one token: check support, positive price and staleness
(block.timestamp - updatedAt > MAX_STALENESS, a checked subtraction),
then write each ring only if its cadence window has elapsed (the two
gated blocks hourlyStep and dailyStep, in source order). -/
def updatePriceHistoryOne (st : VolatilityStorage) (ts : Nat) (token : Nat)
    (feed : FeedData) : Except EvmError VolatilityStorage := do
  let config := st.tokenConfigs token
  if !config.isSupported then .error .TokenNotSupported
  else if feed.price ≤ 0 then .error .InvalidVolatility
  else do
    let age ← checkedSub ts feed.updatedAt
    if age > MAX_STALENESS then .error .StaleVolatilityData
    else
      let history := st.priceHistories token
      let currentPrice := feed.price.toNat
      let written := dailyStep (hourlyStep history ts currentPrice) ts currentPrice
      .ok { st with priceHistories := Function.update st.priceHistories token written }

/-- ChainlinkVolatilityLib.updatePriceHistory over the token array; each
token comes with its feed answer.  An error reverts the whole call, so
no state of a partial iteration survives. -/
def updatePriceHistory (st : VolatilityStorage) (ts : Nat) :
    List (Nat × FeedData) → Except EvmError VolatilityStorage
  | [] => .ok st
  | (token, feed) :: rest => do
      let st1 ← updatePriceHistoryOne st ts token feed
      updatePriceHistory st1 ts rest

/-- Errors thrown by the TypeScript extension codec. -/
inductive CodecError where
  | AddressMismatch
  | AsymmetricData
  | OutOfBounds
  | InvalidValue
deriving DecidableEq

instance : DecidableEq (Except CodecError SpreadParams) := fun a b =>
  match a, b with
  | .ok x, .ok y =>
      if h : x = y then isTrue (by rw [h]) else isFalse (by simp [h])
  | .error e, .error f =>
      if h : e = f then isTrue (by rw [h]) else isFalse (by simp [h])
  | .ok _, .error _ => isFalse (by simp)
  | .error _, .ok _ => isFalse (by simp)

/-- Modelled from the spec: the Extension wire value, reduced to the two
segments this codec populates.  The ExtensionBuilder and Extension
classes the SDK file imports (extension-builder.ts, extension.ts) are
not part of the repository snapshot; per the spec the two getter
segments are byte strings and the decoder reads them back verbatim. -/
structure Extension where
  makingAmountData : List Nat
  takingAmountData : List Nat
deriving DecidableEq

/-- BytesBuilder.addUint256 of the first buildAmountGetterData revision:
a 32-byte big-endian word. -/
def addUint256 (n : Nat) : List Nat := beBytes 32 n

/-- BytesBuilder.addUint8 of the first buildAmountGetterData revision:
a single byte. -/
def addUint8 (n : Nat) : List Nat := beBytes 1 n

/-- The first revision of
VolatilitySpreadExtension.buildAmountGetterData: the BytesBuilder
packing uint256 ++ uint256 ++ uint256 ++ uint8 ++ uint8 (98 bytes). -/
def buildAmountGetterDataPacked (p : SpreadParams) : List Nat :=
  addUint256 p.baseSpreadBps ++ addUint256 p.volatilityMultiplier ++
    addUint256 p.maxSpreadBps ++ addUint8 p.volatilityWindow ++
    addUint8 (if p.useTargetToken then 1 else 0)

/-- The second revision of
VolatilitySpreadExtension.buildAmountGetterData: the standard ABI
encoding of (uint256, uint256, uint256, uint8, bool), five 32-byte
words (160 bytes). -/
def buildAmountGetterData (p : SpreadParams) : List Nat :=
  abiEncodeSpreadParams p

/-- Modelled from the spec: VolatilitySpreadExtension.build through
ExtensionBuilder.withMakingAmountData / withTakingAmountData (the
builder source is not in the repository snapshot).  Per the spec each
getter segment is the 20-byte target contract address followed by the
encoded params, and the identical segment fills both getter slots.
This variant uses the abi-coder revision of buildAmountGetterData. -/
def buildExtension (address : List Nat) (p : SpreadParams) : Extension :=
  { makingAmountData := address ++ buildAmountGetterData p,
    takingAmountData := address ++ buildAmountGetterData p }

/-- Same as buildExtension but with the first (BytesBuilder-packed)
revision of buildAmountGetterData. -/
def buildExtensionPacked (address : List Nat) (p : SpreadParams) : Extension :=
  { makingAmountData := address ++ buildAmountGetterDataPacked p,
    takingAmountData := address ++ buildAmountGetterDataPacked p }

/-- Word i of an ABI head: the 32 bytes at offset 32*i, big-endian. -/
def readWord (data : List Nat) (i : Nat) : Nat :=
  fromBytes ((data.drop (32 * i)).take 32)

/-- VolatilitySpreadExtension.fromExtension: reads the leading 20-byte
address and compares it with the expected contract, requires the two
getter segments to be identical, then abi-decodes the remainder as
(uint256, uint256, uint256, uint8, uint8).  The abi decoder needs five
head words (160 bytes; the 98-byte packed payload makes it throw an
out-of-bounds error) and rejects a uint8 word of 256 or more; the flag
is then compared against 1 to produce the boolean. -/
def fromExtension (ext : Extension) (expectedContract : List Nat) :
    Except CodecError SpreadParams :=
  let extensionAddress := ext.makingAmountData.take 20
  if extensionAddress ≠ expectedContract then .error .AddressMismatch
  else if ext.takingAmountData ≠ ext.makingAmountData then .error .AsymmetricData
  else
    let encodedData := ext.makingAmountData.drop 20
    if encodedData.length < 160 then .error .OutOfBounds
    else
      let w3 := readWord encodedData 3
      let w4 := readWord encodedData 4
      if 256 ≤ w3 then .error .InvalidValue
      else if 256 ≤ w4 then .error .InvalidValue
      else .ok
        { baseSpreadBps := readWord encodedData 0,
          volatilityMultiplier := readWord encodedData 1,
          maxSpreadBps := readWord encodedData 2,
          volatilityWindow := w3,
          useTargetToken := w4 = 1 }

/-- A storage with an overridden token (7), a stablecoin with a rich
recorded history (5), and nothing else configured. -/
def stC5 : VolatilityStorage :=
  { tokenConfigs := fun a =>
      if a = 5 then
        { priceFeed := 31, volatilityOverride := 0, isStablecoin := true, isSupported := true }
      else if a = 7 then
        { priceFeed := 32, volatilityOverride := 777, isStablecoin := false, isSupported := true }
      else emptyTokenConfig,
    priceHistories := fun a =>
      if a = 5 then
        { hourlyPrices := [100, 900, 50, 4000] ++ List.replicate 20 1,
          dailyPrices := [3, 900, 1, 800, 2, 700, 4],
          lastHourlyUpdate := 123456, lastDailyUpdate := 123456,
          hourlyIndex := 4, dailyIndex := 0 }
      else emptyPriceHistory }

/-- A supported plain token (1) whose price history was recorded (both
last-update timestamps are nonzero) but whose rings hold no valid
sample pair. -/
def stC6 : VolatilityStorage :=
  { tokenConfigs := fun a =>
      if a = 1 then
        { priceFeed := 33, volatilityOverride := 0, isStablecoin := false, isSupported := true }
      else emptyTokenConfig,
    priceHistories := fun a =>
      if a = 1 then
        { emptyPriceHistory with lastHourlyUpdate := 1000, lastDailyUpdate := 1000 }
      else emptyPriceHistory }

/-- Storage for the worked example of the spec: the taker asset (2) is
supported with a manual volatility override of 2000 bps. -/
def stC1 : VolatilityStorage :=
  { tokenConfigs := fun a =>
      if a = 2 then
        { priceFeed := 34, volatilityOverride := 2000, isStablecoin := false, isSupported := true }
      else emptyTokenConfig,
    priceHistories := fun _ => emptyPriceHistory }

/-- The order of the spec's worked example: 1e18 making, 3000e6 taking. -/
def orderC1 : Order :=
  { salt := 1, maker := 10, receiver := 0, makerAsset := 3, takerAsset := 2,
    makingAmount := 10 ^ 18, takingAmount := 3000 * 10 ^ 6, makerTraits := 0 }

/-- The spec's example parameters (spread comes out at 90 bps). -/
def paramsC1 : SpreadParams :=
  { baseSpreadBps := 50, volatilityMultiplier := 200, maxSpreadBps := 200,
    volatilityWindow := 0, useTargetToken := false }

/-- A supported taker asset (2) with a tiny volatility override. -/
def stC1x : VolatilityStorage :=
  { tokenConfigs := fun a =>
      if a = 2 then
        { priceFeed := 35, volatilityOverride := 1, isStablecoin := false, isSupported := true }
      else emptyTokenConfig,
    priceHistories := fun _ => emptyPriceHistory }

/-- A one-for-one order. -/
def orderC1x : Order :=
  { salt := 0, maker := 11, receiver := 0, makerAsset := 3, takerAsset := 2,
    makingAmount := 1, takingAmount := 1, makerTraits := 0 }

/-- Decodable params whose base spread of 20000 bps exceeds 100%; the
decoder never range-checks them. -/
def paramsC1x : SpreadParams :=
  { baseSpreadBps := 20000, volatilityMultiplier := 0, maxSpreadBps := 30000,
    volatilityWindow := 0, useTargetToken := false }

/-- A storage with a supported token 1 whose history was last written
at time 9500. -/
def stC7 : VolatilityStorage :=
  { tokenConfigs := fun a =>
      if a = 1 then
        { priceFeed := 36, volatilityOverride := 0, isStablecoin := false, isSupported := true }
      else emptyTokenConfig,
    priceHistories := fun a =>
      if a = 1 then
        { emptyPriceHistory with lastHourlyUpdate := 9500, lastDailyUpdate := 9500 }
      else emptyPriceHistory }

/-- A supported token 4 whose hourly ring was last written at time 1000
and whose daily ring was never written. -/
def stC8 : VolatilityStorage :=
  { tokenConfigs := fun a =>
      if a = 4 then
        { priceFeed := 37, volatilityOverride := 0, isStablecoin := false, isSupported := true }
      else emptyTokenConfig,
    priceHistories := fun a =>
      if a = 4 then { emptyPriceHistory with lastHourlyUpdate := 1000 }
      else emptyPriceHistory }

/-- The accumulator shape of the volatility loop: sums and count of a
list of per-pair returns. -/
def accOf (rs : List Nat) : Nat × Nat × Nat :=
  (rs.sum, (rs.map fun r => r * r).sum, rs.length)

/-- A 20-byte target contract address. -/
def addrC4 : List Nat := List.range 20

/-- A different 20-byte expected address. -/
def addrC4x : List Nat := List.replicate 20 7

/-- A valid SpreadParams value for the codec example. -/
def paramsC4 : SpreadParams :=
  { baseSpreadBps := 25, volatilityMultiplier := 100, maxSpreadBps := 150,
    volatilityWindow := 1, useTargetToken := true }

theorem checkedAdd_ok {x y z : Nat} (h : checkedAdd x y = .ok z) : z = x + y := by
  unfold checkedAdd at h
  split at h <;> simp_all

theorem checkedMul_ok {x y z : Nat} (h : checkedMul x y = .ok z) : z = x * y := by
  unfold checkedMul at h
  split at h <;> simp_all

theorem checkedSub_ok_of_le {x y : Nat} (h : y ≤ x) : checkedSub x y = .ok (x - y) := by
  unfold checkedSub
  simp [h]

theorem rawAdd_eq {x y : Nat} (h : x + y < UINT256) : rawAdd x y = x + y :=
  Nat.mod_eq_of_lt h

theorem rawSub_eq {x y : Nat} (hyx : y ≤ x) (hx : x < UINT256) : rawSub x y = x - y := by
  unfold rawSub
  have h1 : x + UINT256 - y = UINT256 + (x - y) := by omega
  rw [h1, Nat.add_mod_left, Nat.mod_eq_of_lt (by omega)]

theorem mulDiv_ok {x y d : Nat} (hd : d ≠ 0) (h : x * y / d < UINT256) :
    mulDiv x y d = .ok (x * y / d) := by
  unfold mulDiv
  simp [hd, h]

/-- Characterization of the dynamic spread when neither the impact
computation overflows a uint256 nor the unchecked addition wraps: it
agrees with the specification formula. -/
theorem calculateDynamicSpread_eq (b m x v : Nat)
    (him : v / 100 * m / 100 < UINT256)
    (hsum : b + v / 100 * m / 100 < UINT256) :
    calculateDynamicSpread b m x v = .ok (dynamicSpreadSpec b m x v) := by
  simp only [calculateDynamicSpread, dynamicSpreadSpec]
  rw [mulDiv_ok (by norm_num) him]
  simp [Except.bind, rawAdd_eq hsum]

/-- With a multiplier of at most 1000 the volatility impact is bounded
by a tenth of the volatility. -/
theorem impact_le_div10 (v m : Nat) (hm : m ≤ 1000) :
    v / 100 * m / 100 ≤ v / 10 := by
  have h1 : v / 100 * m / 100 ≤ v / 100 * 10 := by
    calc v / 100 * m / 100 ≤ v / 100 * 1000 / 100 :=
          Nat.div_le_div_right (Nat.mul_le_mul_left _ hm)
      _ = v / 100 * 10 * 100 / 100 := by ring_nf
      _ = v / 100 * 10 := Nat.mul_div_cancel _ (by norm_num)
  have h2 : v / 100 * 10 ≤ v / 10 := by
    rw [Nat.le_div_iff_mul_le (by norm_num)]
    calc v / 100 * 10 * 10 = v / 100 * 100 := by ring
      _ ≤ v := Nat.div_mul_le_self v 100
  exact le_trans h1 h2

theorem impact_fits (v m b : Nat) (hm : m ≤ 1000) (hb : b ≤ 1000)
    (hv : v < UINT256) : b + v / 100 * m / 100 < UINT256 := by
  have h1 : v / 100 * m / 100 ≤ v / 10 := impact_le_div10 v m hm
  have h2 : v / 10 * 10 ≤ v := Nat.div_mul_le_self v 10
  have h3 : (10000 : Nat) ≤ UINT256 := by norm_num [UINT256]
  have h4 : 10 * (b + v / 100 * m / 100) < 10 * UINT256 := by
    calc 10 * (b + v / 100 * m / 100) ≤ 10 * (1000 + v / 10) := by
          apply Nat.mul_le_mul_left
          omega
      _ = 10000 + v / 10 * 10 := by ring
      _ ≤ 10000 + v := by omega
      _ < 10 * UINT256 := by omega
  exact Nat.lt_of_mul_lt_mul_left h4

/-- C2 (corrected): with a 256-bit in-range impact and sum, the dynamic
spread equals the exact integer formula of the specification; the
worked example 50 / 200 / 200 at 2000 bps of volatility gives 90. -/
theorem C2_spread_formula (b m x v : Nat)
    (him : v / 100 * m / 100 < UINT256)
    (hsum : b + v / 100 * m / 100 < UINT256) :
    calculateDynamicSpread b m x v =
      .ok (min (b + v / 100 * m / 100) x) :=
  calculateDynamicSpread_eq b m x v him hsum

/-- Witness for C2_spread_formula: the worked example of the spec,
baseSpreadBps 50, multiplier 200, cap 200, volatility 2000 bps gives a
90 bps spread. -/
theorem C2_spread_formula_witness :
    calculateDynamicSpread 50 200 200 2000 = .ok (min (50 + 2000 / 100 * 200 / 100) 200)
      ∧ min (50 + 2000 / 100 * 200 / 100) 200 = 90 :=
  ⟨C2_spread_formula 50 200 200 2000 (by norm_num [UINT256]) (by norm_num [UINT256]), by norm_num⟩

/-- C2 counterexample: the claim quantifies over every SpreadParams and
every volatility value, but the unchecked rawAdd wraps modulo 2^256:
with baseSpreadBps = 2^256 - 1, multiplier 100, cap 5 and volatility
200 the code returns 1 while the claimed operation sequence yields
min((2^256 - 1) + 2, 5) = 5. -/
theorem C2_spread_formula_counterexample :
    calculateDynamicSpread (UINT256 - 1) 100 5 200 = .ok 1
      ∧ (1 : Nat) ≠ min (UINT256 - 1 + 200 / 100 * 100 / 100) 5 := by
  constructor
  · rfl
  · norm_num [UINT256]

/-- C3: for valid SpreadParams (base at most the cap, cap and
multiplier at most 1000) and any two uint256 volatility inputs, the
dynamic spread computes successfully, stays within [baseSpreadBps,
maxSpreadBps], and is monotone in the volatility. -/
theorem C3_spread_bounds_monotone (b m x v v' : Nat) (hbx : b ≤ x)
    (hx : x ≤ 1000) (hm : m ≤ 1000) (hv : v < UINT256) (hv' : v' < UINT256)
    (hvv : v ≤ v') :
    ∃ r r', calculateDynamicSpread b m x v = .ok r ∧
      calculateDynamicSpread b m x v' = .ok r' ∧ b ≤ r ∧ r ≤ x ∧ r ≤ r' := by
  have hb : b ≤ 1000 := le_trans hbx hx
  have hfit : b + v / 100 * m / 100 < UINT256 := impact_fits v m b hm hb hv
  have hfit' : b + v' / 100 * m / 100 < UINT256 := impact_fits v' m b hm hb hv'
  refine ⟨min (b + v / 100 * m / 100) x, min (b + v' / 100 * m / 100) x,
    calculateDynamicSpread_eq b m x v (by omega) (by omega),
    calculateDynamicSpread_eq b m x v' (by omega) (by omega), ?_, ?_, ?_⟩
  · exact le_min (Nat.le_add_right b _) hbx
  · exact min_le_right _ _
  · refine min_le_min (Nat.add_le_add_left ?_ b) (le_refl x)
    exact Nat.div_le_div_right (Nat.mul_le_mul_right m (Nat.div_le_div_right hvv))

/-- Witness for C3_spread_bounds_monotone at the spec's example
parameters with volatilities 2000 and 10000 bps. -/
theorem C3_spread_bounds_monotone_witness :
    ∃ r r', calculateDynamicSpread 50 200 200 2000 = .ok r ∧
      calculateDynamicSpread 50 200 200 10000 = .ok r' ∧ 50 ≤ r ∧ r ≤ 200 ∧ r ≤ r' :=
  C3_spread_bounds_monotone 50 200 200 2000 10000 (by norm_num) (by norm_num)
    (by norm_num) (by norm_num [UINT256]) (by norm_num [UINT256]) (by norm_num)

/-- C5: precedence of the volatility lookup.  An unsupported token
(including any token with no TokenConfig, whose mapping entry is the
zero record) fails with TokenNotSupported; otherwise a positive manual
override is returned unconditionally; otherwise a stablecoin gets the
fixed constant, whatever the recorded price history (the statement
quantifies over every storage, hence over every price history). -/
theorem C5_volatility_precedence (st : VolatilityStorage) (token window : Nat) :
    ((st.tokenConfigs token).isSupported = false →
      getTokenVolatility st token window = .error .TokenNotSupported)
    ∧ ((st.tokenConfigs token).isSupported = true →
        0 < (st.tokenConfigs token).volatilityOverride →
        getTokenVolatility st token window = .ok (st.tokenConfigs token).volatilityOverride)
    ∧ ((st.tokenConfigs token).isSupported = true →
        (st.tokenConfigs token).volatilityOverride = 0 →
        (st.tokenConfigs token).isStablecoin = true →
        getTokenVolatility st token window = .ok STABLECOIN_VOLATILITY) := by
  refine ⟨fun h1 => ?_, fun h1 h2 => ?_, fun h1 h2 h3 => ?_⟩
  · simp [getTokenVolatility, h1]
  · simp [getTokenVolatility, h1, h2]
  · simp [getTokenVolatility, h1, h2, h3]

/-- Witness for C5_volatility_precedence: an unconfigured token fails,
the override wins, and the stablecoin with recorded history still gets
the fixed 100 bps. -/
theorem C5_volatility_precedence_witness :
    getTokenVolatility stC5 1 0 = .error .TokenNotSupported
    ∧ getTokenVolatility stC5 7 2 = .ok 777
    ∧ getTokenVolatility stC5 5 0 = .ok STABLECOIN_VOLATILITY :=
  ⟨(C5_volatility_precedence stC5 1 0).1 rfl,
    (C5_volatility_precedence stC5 7 2).2.1 rfl (by decide),
    (C5_volatility_precedence stC5 5 0).2.2 rfl rfl rfl⟩

/-- C6 (code bug): with recorded history but fewer than 2 valid
samples, the short window does return the 3000 bps default, but the
long window annualizes the stubbed daily figure and returns
3000 * 1910 / 100 = 57300, and the blended window returns 19290 —
not the fixed default the claim (and spec) state. -/
theorem C6_insufficient_samples_default :
    getTokenVolatility stC6 1 0 = .ok DEFAULT_VOLATILITY
    ∧ getTokenVolatility stC6 1 1 = .ok 57300
    ∧ getTokenVolatility stC6 1 2 = .ok 19290
    ∧ (57300 : Nat) ≠ DEFAULT_VOLATILITY ∧ (19290 : Nat) ≠ DEFAULT_VOLATILITY := by
  refine ⟨rfl, rfl, rfl, by norm_num [DEFAULT_VOLATILITY], by norm_num [DEFAULT_VOLATILITY]⟩

/-- C9: encodeSpreadParams succeeds exactly when baseSpreadBps and
maxSpreadBps are at most 1000, the multiplier is at most 1000 and the
window is at most 2; the relation between baseSpreadBps and
maxSpreadBps is never checked. -/
theorem C9_encode_validation (b m x w : Nat) (u : Bool) :
    (∃ out, encodeSpreadParams b m x w u = .ok out) ↔
      (b ≤ 1000 ∧ x ≤ 1000 ∧ m ≤ 1000 ∧ w ≤ 2) := by
  unfold encodeSpreadParams MAX_SPREAD
  split_ifs with h1 h2 h3 h4 <;> simp <;> omega

/-- Witness for C9_encode_validation: baseSpreadBps 1000 with
maxSpreadBps 0 — base strictly above max — is accepted and encoded. -/
theorem C9_encode_validation_witness :
    (∃ out, encodeSpreadParams 1000 0 0 0 false = .ok out) ∧ (0 : Nat) < 1000 :=
  ⟨(C9_encode_validation 1000 0 0 0 false).mpr (by norm_num), by norm_num⟩

/-- C1 (corrected): the fill-time entry points.  When the volatility
lookup succeeds, the spread computation succeeds, the proportionally
scaled base and the taking-side sum stay below 2^256, and the computed
spread is at most 10000 bps, getTakingAmount returns
base + base*spread/10000 and getMakingAmount returns
base - base*spread/10000 with truncating division. -/
theorem C1_amounts_formula (st : VolatilityStorage) (order : Order)
    (params : SpreadParams) (makingAmountFilled takingAmountFilled v s : Nat)
    (hv : getTokenVolatility st
        (if params.useTargetToken then order.makerAsset else order.takerAsset)
        params.volatilityWindow = .ok v)
    (hs : calculateDynamicSpread params.baseSpreadBps params.volatilityMultiplier
        params.maxSpreadBps v = .ok s)
    (hmk : 0 < order.makingAmount) (htk : 0 < order.takingAmount)
    (hbaseT : makingAmountFilled * order.takingAmount / order.makingAmount < UINT256)
    (hfeeT : makingAmountFilled * order.takingAmount / order.makingAmount * s
        / BASIS_POINTS < UINT256)
    (hsumT : makingAmountFilled * order.takingAmount / order.makingAmount
        + makingAmountFilled * order.takingAmount / order.makingAmount * s
          / BASIS_POINTS < UINT256)
    (hbaseM : takingAmountFilled * order.makingAmount / order.takingAmount < UINT256)
    (hsp : s ≤ BASIS_POINTS) :
    getTakingAmount st order makingAmountFilled params
      = .ok (makingAmountFilled * order.takingAmount / order.makingAmount
          + makingAmountFilled * order.takingAmount / order.makingAmount * s
            / BASIS_POINTS)
    ∧ getMakingAmount st order takingAmountFilled params
      = .ok (takingAmountFilled * order.makingAmount / order.takingAmount
          - takingAmountFilled * order.makingAmount / order.takingAmount * s
            / BASIS_POINTS) := by
  have bind_ok : ∀ {α β : Type} (a : α) (f : α → Except EvmError β),
      (Except.ok a >>= f) = f a := fun _ _ => rfl
  have hBP : (BASIS_POINTS : Nat) ≠ 0 := by norm_num [BASIS_POINTS]
  have hfeeM : takingAmountFilled * order.makingAmount / order.takingAmount * s
      / BASIS_POINTS ≤ takingAmountFilled * order.makingAmount / order.takingAmount := by
    calc takingAmountFilled * order.makingAmount / order.takingAmount * s / BASIS_POINTS
        ≤ takingAmountFilled * order.makingAmount / order.takingAmount * BASIS_POINTS
          / BASIS_POINTS := Nat.div_le_div_right (Nat.mul_le_mul_left _ hsp)
      _ = takingAmountFilled * order.makingAmount / order.takingAmount :=
          Nat.mul_div_cancel _ (by norm_num [BASIS_POINTS])
  constructor
  · simp only [getTakingAmount]
    rw [hv, bind_ok, hs, bind_ok,
      mulDiv_ok (Nat.pos_iff_ne_zero.mp hmk) hbaseT, bind_ok,
      mulDiv_ok hBP hfeeT, bind_ok, rawAdd_eq hsumT]
    rfl
  · simp only [getMakingAmount]
    rw [hv, bind_ok, hs, bind_ok,
      mulDiv_ok (Nat.pos_iff_ne_zero.mp htk) hbaseM, bind_ok,
      mulDiv_ok hBP (lt_of_le_of_lt hfeeM hbaseM), bind_ok,
      rawSub_eq hfeeM hbaseM]
    rfl

/-- Witness for C1_amounts_formula: the spec's worked example, a full
fill of 1e18 against volatility 2000 bps (spread 90 bps) gives the
taking amount 3027e6, and the mirror making amount for 3000e6 filled is
1e18 minus 9e15. -/
theorem C1_amounts_formula_witness :
    getTakingAmount stC1 orderC1 (10 ^ 18) paramsC1 = .ok 3027000000
    ∧ getMakingAmount stC1 orderC1 3000000000 paramsC1 = .ok 991000000000000000 := by
  have h := C1_amounts_formula stC1 orderC1 paramsC1 (10 ^ 18) 3000000000 2000 90
    rfl rfl (by decide) (by decide) (by decide) (by decide) (by decide) (by decide)
    (by decide)
  exact ⟨h.1, h.2⟩

/-- C1 counterexample: with a decodable SpreadParams whose computed
spread is 20000 bps, the fill of 1 against a 1-for-1 order makes the
unchecked rawSub wrap: getMakingAmount returns 2^256 - 1, while the
claimed formula base - base*spread/10000 (truncating) gives 0. -/
theorem C1_amounts_formula_counterexample :
    getMakingAmount stC1x orderC1x 1 paramsC1x = .ok (UINT256 - 1)
    ∧ UINT256 - 1 ≠ 1 * 1 / 1 - 1 * 1 / 1 * 20000 / 10000 := by
  exact ⟨rfl, by norm_num [UINT256]⟩

theorem ok_bind {ε α β : Type} (a : α) (f : α → Except ε β) :
    (Except.ok a >>= f : Except ε β) = f a := rfl

theorem error_bind {ε α β : Type} (e : ε) (f : α → Except ε β) :
    (Except.error e >>= f : Except ε β) = Except.error e := rfl

/-- C7 (corrected): for a supported token with a positive price and an
observation not later than the block time, a price-history update fails
with StaleVolatilityData exactly when the observation is older than
MAX_STALENESS relative to the block time — the check is
block.timestamp - updatedAt > 1 hour, not a comparison with the asset's
last recorded timestamp — and a stale head token makes the whole batch
call abort with that error (so no state of the call survives). -/
theorem C7_stale_condition (st : VolatilityStorage) (ts token : Nat)
    (feed : FeedData) (rest : List (Nat × FeedData))
    (hsup : (st.tokenConfigs token).isSupported = true)
    (hpos : 0 < feed.price) (hts : feed.updatedAt ≤ ts) :
    (updatePriceHistoryOne st ts token feed = .error .StaleVolatilityData
      ↔ MAX_STALENESS < ts - feed.updatedAt)
    ∧ (MAX_STALENESS < ts - feed.updatedAt →
        updatePriceHistory st ts ((token, feed) :: rest)
          = .error .StaleVolatilityData) := by
  have herr : MAX_STALENESS < ts - feed.updatedAt →
      updatePriceHistoryOne st ts token feed = .error .StaleVolatilityData := by
    intro h
    simp [updatePriceHistoryOne, hsup, not_le.mpr hpos, checkedSub_ok_of_le hts,
      ok_bind, h]
  have hok : ¬ MAX_STALENESS < ts - feed.updatedAt →
      updatePriceHistoryOne st ts token feed ≠ .error .StaleVolatilityData := by
    intro h
    simp [updatePriceHistoryOne, hsup, not_le.mpr hpos, checkedSub_ok_of_le hts,
      ok_bind, h]
  refine ⟨⟨fun he => ?_, herr⟩, fun h => ?_⟩
  · by_contra h
    exact hok h he
  · simp [updatePriceHistory, herr h, error_bind]

/-- Witness for C7_stale_condition: at block time 10000 a feed answer
from time 1000 (age 9000 seconds) is rejected as stale, alone and at
the head of a batch. -/
theorem C7_stale_condition_witness :
    updatePriceHistoryOne stC7 10000 1 { price := 5, updatedAt := 1000 }
      = .error .StaleVolatilityData
    ∧ updatePriceHistory stC7 10000 [(1, { price := 5, updatedAt := 1000 })]
      = .error .StaleVolatilityData :=
  ⟨(C7_stale_condition stC7 10000 1 { price := 5, updatedAt := 1000 } []
      rfl (by norm_num) (by norm_num)).1.mpr (by norm_num [MAX_STALENESS]),
    (C7_stale_condition stC7 10000 1 { price := 5, updatedAt := 1000 } []
      rfl (by norm_num) (by norm_num)).2 (by norm_num [MAX_STALENESS])⟩

/-- C7 counterexample: the claim says an update whose observation
timestamp is below the asset's last recorded timestamp must fail with
the stale-data error, but the code only compares the observation age
against the block time: at block time 10000, with the last recorded
update at 9500, a fresh-enough answer observed at 9000 succeeds. -/
theorem C7_stale_condition_counterexample :
    (9000 : Nat) < (stC7.priceHistories 1).lastHourlyUpdate
    ∧ ∃ st', updatePriceHistoryOne stC7 10000 1 { price := 5, updatedAt := 9000 }
        = .ok st' :=
  ⟨by decide, ⟨_, rfl⟩⟩

theorem hourlyStep_write {history : PriceHistory} {ts p : Nat}
    (h : history.lastHourlyUpdate + 3600 ≤ ts) :
    hourlyStep history ts p =
      { history with
        hourlyPrices := history.hourlyPrices.set history.hourlyIndex p,
        hourlyIndex := (history.hourlyIndex + 1) % 24,
        lastHourlyUpdate := ts } := by
  unfold hourlyStep
  rw [if_pos h]

theorem hourlyStep_skip {history : PriceHistory} {ts p : Nat}
    (h : ts < history.lastHourlyUpdate + 3600) :
    hourlyStep history ts p = history := by
  unfold hourlyStep
  rw [if_neg (by omega)]

theorem dailyStep_write {history : PriceHistory} {ts p : Nat}
    (h : history.lastDailyUpdate + 86400 ≤ ts) :
    dailyStep history ts p =
      { history with
        dailyPrices := history.dailyPrices.set history.dailyIndex p,
        dailyIndex := (history.dailyIndex + 1) % 7,
        lastDailyUpdate := ts } := by
  unfold dailyStep
  rw [if_pos h]

theorem dailyStep_skip {history : PriceHistory} {ts p : Nat}
    (h : ts < history.lastDailyUpdate + 86400) :
    dailyStep history ts p = history := by
  unfold dailyStep
  rw [if_neg (by omega)]

theorem hourlyStep_daily_fields (history : PriceHistory) (ts p : Nat) :
    (hourlyStep history ts p).dailyPrices = history.dailyPrices
    ∧ (hourlyStep history ts p).dailyIndex = history.dailyIndex
    ∧ (hourlyStep history ts p).lastDailyUpdate = history.lastDailyUpdate := by
  unfold hourlyStep
  split <;> exact ⟨rfl, rfl, rfl⟩

theorem dailyStep_hourly_fields (history : PriceHistory) (ts p : Nat) :
    (dailyStep history ts p).hourlyPrices = history.hourlyPrices
    ∧ (dailyStep history ts p).hourlyIndex = history.hourlyIndex
    ∧ (dailyStep history ts p).lastHourlyUpdate = history.lastHourlyUpdate := by
  unfold dailyStep
  split <;> exact ⟨rfl, rfl, rfl⟩

/-- A successful per-token update writes exactly the gated two-step ring
update at the token's slot and touches nothing else. -/
theorem updateOne_ok_form (st : VolatilityStorage) (ts token : Nat) (feed : FeedData)
    (st' : VolatilityStorage) (h : updatePriceHistoryOne st ts token feed = .ok st') :
    st'.priceHistories
      = Function.update st.priceHistories token
          (dailyStep (hourlyStep (st.priceHistories token) ts feed.price.toNat) ts
            feed.price.toNat) := by
  by_cases hsup : (st.tokenConfigs token).isSupported = true
  case neg => simp [updatePriceHistoryOne, hsup] at h
  by_cases hpos : feed.price ≤ 0
  case pos => simp [updatePriceHistoryOne, hsup, hpos] at h
  by_cases hts : feed.updatedAt ≤ ts
  case neg => simp [updatePriceHistoryOne, hsup, hpos, checkedSub, hts, error_bind] at h
  by_cases hage : MAX_STALENESS < ts - feed.updatedAt
  case pos =>
    simp [updatePriceHistoryOne, hsup, hpos, checkedSub_ok_of_le hts, ok_bind, hage] at h
  simp [updatePriceHistoryOne, hsup, hpos, checkedSub_ok_of_le hts, ok_bind, hage] at h
  rw [← h]

/-- C8: cadence gating of a successful price-history update.  The
hourly ring, its cursor and timestamp change only when at least one
hour has passed since lastHourlyUpdate, and then by writing the cursor
slot, advancing modulo 24 and stamping the block time; analogously for
the daily ring modulo 7 with a one-day gate; other tokens' histories
are untouched.  In particular a second update within the same window
(its block time below lastHourlyUpdate + 3600, which after a write is
the write's block time) leaves that ring, cursor and timestamp
unchanged. -/
theorem C8_cadence_gating (st : VolatilityStorage) (ts token : Nat) (feed : FeedData)
    (st' : VolatilityStorage)
    (h : updatePriceHistoryOne st ts token feed = .ok st') :
    (∀ t, t ≠ token → st'.priceHistories t = st.priceHistories t)
    ∧ (ts < (st.priceHistories token).lastHourlyUpdate + 3600 →
        (st'.priceHistories token).hourlyPrices = (st.priceHistories token).hourlyPrices
        ∧ (st'.priceHistories token).hourlyIndex = (st.priceHistories token).hourlyIndex
        ∧ (st'.priceHistories token).lastHourlyUpdate
            = (st.priceHistories token).lastHourlyUpdate)
    ∧ ((st.priceHistories token).lastHourlyUpdate + 3600 ≤ ts →
        (st'.priceHistories token).hourlyPrices
            = (st.priceHistories token).hourlyPrices.set
                (st.priceHistories token).hourlyIndex feed.price.toNat
        ∧ (st'.priceHistories token).hourlyIndex
            = ((st.priceHistories token).hourlyIndex + 1) % 24
        ∧ (st'.priceHistories token).lastHourlyUpdate = ts)
    ∧ (ts < (st.priceHistories token).lastDailyUpdate + 86400 →
        (st'.priceHistories token).dailyPrices = (st.priceHistories token).dailyPrices
        ∧ (st'.priceHistories token).dailyIndex = (st.priceHistories token).dailyIndex
        ∧ (st'.priceHistories token).lastDailyUpdate
            = (st.priceHistories token).lastDailyUpdate)
    ∧ ((st.priceHistories token).lastDailyUpdate + 86400 ≤ ts →
        (st'.priceHistories token).dailyPrices
            = (st.priceHistories token).dailyPrices.set
                (st.priceHistories token).dailyIndex feed.price.toNat
        ∧ (st'.priceHistories token).dailyIndex
            = ((st.priceHistories token).dailyIndex + 1) % 7
        ∧ (st'.priceHistories token).lastDailyUpdate = ts) := by
  have hPH := updateOne_ok_form st ts token feed st' h
  have hcur : st'.priceHistories token
      = dailyStep (hourlyStep (st.priceHistories token) ts feed.price.toNat) ts
          feed.price.toNat := by
    rw [hPH, Function.update_same]
  have hd1 := hourlyStep_daily_fields (st.priceHistories token) ts feed.price.toNat
  refine ⟨fun t ht => by rw [hPH, Function.update_noteq ht], ?_, ?_, ?_, ?_⟩
  · intro hc
    rw [hcur, hourlyStep_skip hc]
    exact dailyStep_hourly_fields _ ts feed.price.toNat
  · intro hc
    rw [hcur, hourlyStep_write hc]
    have hh := dailyStep_hourly_fields
      ({ st.priceHistories token with
          hourlyPrices := (st.priceHistories token).hourlyPrices.set
            (st.priceHistories token).hourlyIndex feed.price.toNat,
          hourlyIndex := ((st.priceHistories token).hourlyIndex + 1) % 24,
          lastHourlyUpdate := ts }) ts feed.price.toNat
    exact ⟨hh.1, hh.2.1, hh.2.2⟩
  · intro hc
    rw [hcur, dailyStep_skip (by rw [hd1.2.2]; exact hc)]
    exact ⟨hd1.1, hd1.2.1, hd1.2.2⟩
  · intro hc
    rw [hcur, dailyStep_write (by rw [hd1.2.2]; exact hc)]
    refine ⟨?_, ?_, rfl⟩
    · simp only [hd1.1, hd1.2.1]
    · simp only [hd1.2.1]

/-- Witness for C8_cadence_gating: at time 5000 (more than an hour past
1000, less than a day past 0 ... the daily gate at lastDailyUpdate = 0
passes only from 86400 on), the hourly ring is written and advanced
while the daily ring of this example stays untouched. -/
theorem C8_cadence_gating_witness :
    ∃ st', updatePriceHistoryOne stC8 5000 4 { price := 42, updatedAt := 4000 } = .ok st'
      ∧ (st'.priceHistories 4).hourlyIndex = 1
      ∧ (st'.priceHistories 4).lastHourlyUpdate = 5000
      ∧ (st'.priceHistories 4).dailyPrices = (stC8.priceHistories 4).dailyPrices
      ∧ (st'.priceHistories 4).dailyIndex = (stC8.priceHistories 4).dailyIndex
      ∧ (st'.priceHistories 4).lastDailyUpdate
          = (stC8.priceHistories 4).lastDailyUpdate := by
  obtain ⟨hno, hskipH, hwriteH, hskipD, hwriteD⟩ :=
    C8_cadence_gating stC8 5000 4 { price := 42, updatedAt := 4000 } _ rfl
  exact ⟨_, rfl, (hwriteH (by decide)).2.1, (hwriteH (by decide)).2.2,
    (hskipD (by decide)).1, (hskipD (by decide)).2.1, (hskipD (by decide)).2.2⟩

theorem two_mul_le_sq_add (a b : Nat) : 2 * (a * b) ≤ a * a + b * b := by
  have h := two_mul_le_add_sq a b
  simpa [pow_two, Nat.mul_assoc] using h

theorem amgm_list (a : Nat) (rs : List Nat) :
    2 * (a * rs.sum) ≤ rs.length * (a * a) + (rs.map fun r => r * r).sum := by
  induction rs with
  | nil => simp
  | cons b t ih =>
      have h1 := two_mul_le_sq_add a b
      calc 2 * (a * (b :: t).sum) = 2 * (a * b) + 2 * (a * t.sum) := by
            simp only [List.sum_cons]
            ring
        _ ≤ (a * a + b * b) + (t.length * (a * a) + (t.map fun r => r * r).sum) :=
            Nat.add_le_add h1 ih
        _ = (b :: t).length * (a * a) + ((b :: t).map fun r => r * r).sum := by
            simp only [List.length_cons, List.map_cons, List.sum_cons]
            ring

/-- The Cauchy-Schwarz special case the variance computation relies on:
the square of a sum is at most the length times the sum of squares. -/
theorem sq_sum_le_len_mul_sum_sq (rs : List Nat) :
    rs.sum * rs.sum ≤ rs.length * (rs.map fun r => r * r).sum := by
  induction rs with
  | nil => simp
  | cons a t ih =>
      have h1 := amgm_list a t
      calc (a :: t).sum * (a :: t).sum
            = a * a + (2 * (a * t.sum) + t.sum * t.sum) := by
            simp only [List.sum_cons]
            ring
        _ ≤ a * a + ((t.length * (a * a) + (t.map fun r => r * r).sum)
              + t.length * (t.map fun r => r * r).sum) :=
            Nat.add_le_add_left (Nat.add_le_add h1 ih) _
        _ = (a :: t).length * ((a :: t).map fun r => r * r).sum := by
            simp only [List.length_cons, List.map_cons, List.sum_cons]
            ring

/-- The truncating-division mean squared is at most the truncating
mean of the squares. -/
theorem mean_sq_le_div (s q n : Nat) (hn : 0 < n) (h : s * s ≤ n * q) :
    s / n * (s / n) ≤ q / n := by
  rw [Nat.le_div_iff_mul_le hn]
  have hm : s / n * n ≤ s := Nat.div_mul_le_self s n
  have h2 : (s / n * n) * (s / n * n) ≤ n * q := le_trans (Nat.mul_le_mul hm hm) h
  have h3 : n * (s / n * (s / n) * n) ≤ n * q := by
    calc n * (s / n * (s / n) * n) = (s / n * n) * (s / n * n) := by ring
      _ ≤ n * q := h2
  exact Nat.le_of_mul_le_mul_left h3 hn

theorem pairReturn_error {prev cur : Nat} {e : EvmError}
    (h : pairReturn prev cur = .error e) : e = .MulDivFailed := by
  simp only [pairReturn, mulDiv] at h
  split_ifs at h <;> simp only [ok_bind, error_bind] at h
  all_goals try split_ifs at h
  all_goals simp_all [pure, Except.pure]

/-- The accumulation loop can fail only with a mulDiv failure or a
checked-arithmetic overflow, never with an underflow. -/
theorem volFold_no_underflow (pairs : List (Nat × Nat)) :
    ∀ acc, volFold pairs acc ≠ .error .ArithmeticUnderflow := by
  induction pairs with
  | nil => intro acc; simp [volFold]
  | cons p rest ih =>
      intro acc
      obtain ⟨prev, cur⟩ := p
      by_cases hz : cur = 0 ∨ prev = 0
      · simpa [volFold, hz] using ih acc
      · cases hr : pairReturn prev cur with
        | error e =>
            have he := pairReturn_error hr
            simp [volFold, hz, hr, error_bind, he]
        | ok r =>
            by_cases h1 : acc.1 + r < UINT256
            case neg =>
              simp [volFold, hz, hr, ok_bind, error_bind, checkedAdd, h1]
            by_cases h2 : r * r < UINT256
            case neg =>
              simp [volFold, hz, hr, ok_bind, error_bind, checkedAdd, checkedMul, h1, h2]
            by_cases h3 : acc.2.1 + r * r < UINT256
            case neg =>
              simp [volFold, hz, hr, ok_bind, error_bind, checkedAdd, checkedMul, h1, h2, h3]
            simpa [volFold, hz, hr, ok_bind, checkedAdd, checkedMul, h1, h2, h3]
              using ih (acc.1 + r, acc.2.1 + r * r, acc.2.2 + 1)

/-- A successful run of the accumulation loop starting from the sums of
some return list ends at the sums of some (extended) return list. -/
theorem volFold_sums (pairs : List (Nat × Nat)) :
    ∀ (rs : List Nat) (out : Nat × Nat × Nat),
      volFold pairs (accOf rs) = .ok out → ∃ rs', out = accOf rs' := by
  induction pairs with
  | nil =>
      intro rs out h
      exact ⟨rs, by simpa [volFold] using h.symm⟩
  | cons p rest ih =>
      intro rs out h
      obtain ⟨prev, cur⟩ := p
      by_cases hz : cur = 0 ∨ prev = 0
      · exact ih rs out (by simpa [volFold, hz] using h)
      · cases hr : pairReturn prev cur with
        | error e => simp [volFold, hz, hr, error_bind] at h
        | ok r =>
            by_cases h1 : (accOf rs).1 + r < UINT256
            case neg =>
              simp [volFold, hz, hr, ok_bind, error_bind, checkedAdd, h1] at h
            by_cases h2 : r * r < UINT256
            case neg =>
              simp [volFold, hz, hr, ok_bind, error_bind, checkedAdd, checkedMul, h1, h2] at h
            by_cases h3 : (accOf rs).2.1 + r * r < UINT256
            case neg =>
              simp [volFold, hz, hr, ok_bind, error_bind, checkedAdd, checkedMul,
                h1, h2, h3] at h
            refine ih (r :: rs) out ?_
            have hacc : ((accOf rs).1 + r, (accOf rs).2.1 + r * r, (accOf rs).2.2 + 1)
                = accOf (r :: rs) := by
              simp [accOf, Nat.add_comm]
            rw [← hacc]
            simpa [volFold, hz, hr, ok_bind, checkedAdd, checkedMul, h1, h2, h3] using h

/-- C10: the variance subtraction
sumSquaredReturns / validSamples - meanReturn * meanReturn never
underflows.  For every sequence of per-pair returns the truncating mean
satisfies (sum/n)^2 at most sumSq/n (second conjunct), so the embedded
_calculateVolatilityFromPrices never takes the checked-subtraction
underflow branch, for any prices array and count (first conjunct). -/
theorem C10_variance_no_underflow :
    (∀ (prices : List Nat) (count : Nat),
      calculateVolatilityFromPrices prices count ≠ .error .ArithmeticUnderflow)
    ∧ (∀ rs : List Nat, 0 < rs.length →
        rs.sum / rs.length * (rs.sum / rs.length)
          ≤ (rs.map fun r => r * r).sum / rs.length) := by
  constructor
  · intro prices count
    unfold calculateVolatilityFromPrices
    split
    · simp
    · cases hf : volFold (adjPairs prices count) (0, 0, 0) with
      | error e =>
          have hne := volFold_no_underflow (adjPairs prices count) (0, 0, 0)
          rw [hf] at hne
          have he : e ≠ .ArithmeticUnderflow := fun heq => hne (by rw [heq])
          rw [error_bind]
          simp [he]
      | ok acc =>
          obtain ⟨rs, hrs⟩ := volFold_sums (adjPairs prices count) [] acc
            (by simpa [accOf] using hf)
          subst hrs
          rw [ok_bind]
          by_cases hv : rs.length < 2
          · simp [accOf, hv, pure, Except.pure]
          · have hn : 0 < rs.length := by omega
            have hmean := mean_sq_le_div rs.sum ((rs.map fun r => r * r).sum)
              rs.length hn (sq_sum_le_len_mul_sum_sq rs)
            by_cases hmm : rs.sum / rs.length * (rs.sum / rs.length) < UINT256
            · simp [accOf, hv, checkedMul, hmm, ok_bind,
                checkedSub_ok_of_le hmean]
            · simp [accOf, hv, checkedMul, hmm, error_bind]
  · intro rs hn
    exact mean_sq_le_div _ _ _ hn (sq_sum_le_len_mul_sum_sq rs)

/-- Witness for C10_variance_no_underflow: a concrete full ring with
two distinct moves (returns 1000 and 2000 bps) computes the standard
deviation without reaching the underflow branch, and the mean bound
holds for the concrete return list. -/
theorem C10_variance_no_underflow_witness :
    calculateVolatilityFromPrices ([10000, 11000, 8800] ++ List.replicate 21 0) 24
      ≠ .error .ArithmeticUnderflow
    ∧ [1000, 2000].sum / [1000, 2000].length * ([1000, 2000].sum / [1000, 2000].length)
        ≤ ([1000, 2000].map fun r => r * r).sum / [1000, 2000].length :=
  ⟨C10_variance_no_underflow.1 ([10000, 11000, 8800] ++ List.replicate 21 0) 24,
    C10_variance_no_underflow.2 [1000, 2000] (by decide)⟩

theorem beBytes_length (k : Nat) : ∀ n, (beBytes k n).length = k := by
  induction k with
  | zero => intro n; rfl
  | succ k ih => intro n; simp [beBytes, ih]

theorem fromBytes_beBytes (k : Nat) : ∀ n, fromBytes (beBytes k n) = n % 256 ^ k := by
  induction k with
  | zero => intro n; simp [beBytes, fromBytes, Nat.mod_one]
  | succ k ih =>
      intro n
      have h2 : (256 : Nat) ^ (k + 1) = 256 * 256 ^ k := by ring
      calc fromBytes (beBytes (k + 1) n)
          = fromBytes (beBytes k (n / 256)) * 256 + n % 256 := by
            simp [beBytes, fromBytes, List.foldl_append]
        _ = n / 256 % 256 ^ k * 256 + n % 256 := by rw [ih]
        _ = n % 256 ^ (k + 1) := by rw [h2, Nat.mod_mul]; ring

theorem fromBytes_beBytes32 {n : Nat} (h : n < UINT256) :
    fromBytes (beBytes 32 n) = n := by
  rw [fromBytes_beBytes]
  exact Nat.mod_eq_of_lt (by calc n < UINT256 := h
    _ = 256 ^ 32 := by norm_num [UINT256])

theorem readWord_zero {w rest : List Nat} (hw : w.length = 32) :
    readWord (w ++ rest) 0 = fromBytes w := by
  have ht : (w ++ rest).take 32 = w := by rw [← hw]; exact List.take_left w rest
  simp [readWord, ht]

theorem readWord_succ {w rest : List Nat} (hw : w.length = 32) (i : Nat) :
    readWord (w ++ rest) (i + 1) = readWord rest i := by
  have hd : (w ++ rest).drop 32 = rest := by rw [← hw]; exact List.drop_left w rest
  unfold readWord
  rw [show 32 * (i + 1) = 32 + 32 * i by ring, ← List.drop_drop, hd]

/-- Reading the five head words of the ABI-encoded SpreadParams gives
back the five fields (the three uint256 fields, the window, and the
0/1 flag word). -/
theorem abiEncode_words (p : SpreadParams)
    (hb : p.baseSpreadBps < UINT256) (hm : p.volatilityMultiplier < UINT256)
    (hx : p.maxSpreadBps < UINT256) (hw : p.volatilityWindow < UINT256) :
    readWord (abiEncodeSpreadParams p) 0 = p.baseSpreadBps
    ∧ readWord (abiEncodeSpreadParams p) 1 = p.volatilityMultiplier
    ∧ readWord (abiEncodeSpreadParams p) 2 = p.maxSpreadBps
    ∧ readWord (abiEncodeSpreadParams p) 3 = p.volatilityWindow
    ∧ readWord (abiEncodeSpreadParams p) 4 = (if p.useTargetToken then 1 else 0) := by
  have hflag : (if p.useTargetToken then (1 : Nat) else 0) < UINT256 := by
    split <;> norm_num [UINT256]
  have hassoc : abiEncodeSpreadParams p
      = beBytes 32 p.baseSpreadBps ++ (beBytes 32 p.volatilityMultiplier
        ++ (beBytes 32 p.maxSpreadBps ++ (beBytes 32 p.volatilityWindow
          ++ beBytes 32 (if p.useTargetToken then 1 else 0)))) := by
    simp [abiEncodeSpreadParams, List.append_assoc]
  rw [hassoc]
  have hw4 : readWord (beBytes 32 (if p.useTargetToken then 1 else 0)) 0
      = (if p.useTargetToken then (1 : Nat) else 0) := by
    rw [show (beBytes 32 (if p.useTargetToken then (1 : Nat) else 0) : List Nat)
        = beBytes 32 (if p.useTargetToken then (1 : Nat) else 0) ++ [] from
      (List.append_nil _).symm]
    rw [readWord_zero (beBytes_length 32 _), fromBytes_beBytes32 hflag]
  refine ⟨?_, ?_, ?_, ?_, ?_⟩
  · rw [readWord_zero (beBytes_length 32 _), fromBytes_beBytes32 hb]
  · rw [readWord_succ (beBytes_length 32 _) 0,
      readWord_zero (beBytes_length 32 _), fromBytes_beBytes32 hm]
  · rw [readWord_succ (beBytes_length 32 _) 1, readWord_succ (beBytes_length 32 _) 0,
      readWord_zero (beBytes_length 32 _), fromBytes_beBytes32 hx]
  · rw [readWord_succ (beBytes_length 32 _) 2, readWord_succ (beBytes_length 32 _) 1,
      readWord_succ (beBytes_length 32 _) 0,
      readWord_zero (beBytes_length 32 _), fromBytes_beBytes32 hw]
  · rw [readWord_succ (beBytes_length 32 _) 3, readWord_succ (beBytes_length 32 _) 2,
      readWord_succ (beBytes_length 32 _) 1, readWord_succ (beBytes_length 32 _) 0,
      hw4]

/-- C4 (corrected): round-trip of the extension codec.  Building with
the abi-coder revision of buildAmountGetterData and decoding with the
same expected contract returns the original SpreadParams in all five
fields; decoding with any different expected contract fails with the
address-mismatch error, for both builder revisions. -/
theorem C4_codec_roundtrip (addr wrongAddr : List Nat) (p : SpreadParams)
    (haddr : addr.length = 20)
    (hb : p.baseSpreadBps < UINT256) (hm : p.volatilityMultiplier < UINT256)
    (hx : p.maxSpreadBps < UINT256) (hw : p.volatilityWindow < 256)
    (hne : wrongAddr ≠ addr) :
    fromExtension (buildExtension addr p) addr = .ok p
    ∧ fromExtension (buildExtension addr p) wrongAddr = .error .AddressMismatch
    ∧ fromExtension (buildExtensionPacked addr p) wrongAddr
        = .error .AddressMismatch := by
  have hwU : p.volatilityWindow < UINT256 :=
    lt_trans hw (by norm_num [UINT256])
  have hwords := abiEncode_words p hb hm hx hwU
  have htake : (addr ++ abiEncodeSpreadParams p).take 20 = addr := by
    rw [← haddr]; exact List.take_left _ _
  have hdrop : (addr ++ abiEncodeSpreadParams p).drop 20 = abiEncodeSpreadParams p := by
    rw [← haddr]; exact List.drop_left _ _
  have htakeP : (addr ++ buildAmountGetterDataPacked p).take 20 = addr := by
    rw [← haddr]; exact List.take_left _ _
  have hlen : (abiEncodeSpreadParams p).length = 160 := by
    simp [abiEncodeSpreadParams, beBytes_length]
  have haddrne : addr ≠ wrongAddr := Ne.symm hne
  refine ⟨?_, ?_, ?_⟩
  · simp only [fromExtension, buildExtension, buildAmountGetterData, htake, hdrop]
    rw [if_neg (by simp)]
    rw [if_neg (by simp)]
    rw [if_neg (by rw [hlen]; norm_num)]
    rw [hwords.1, hwords.2.1, hwords.2.2.1, hwords.2.2.2.1, hwords.2.2.2.2]
    rw [if_neg (by omega)]
    rw [if_neg (by cases p.useTargetToken <;> simp)]
    obtain ⟨b, m, x, w, u⟩ := p
    cases u <;> simp
  · simp only [fromExtension, buildExtension, buildAmountGetterData, htake]
    rw [if_pos haddrne]
  · simp only [fromExtension, buildExtensionPacked, htakeP]
    rw [if_pos haddrne]

/-- Witness for C4_codec_roundtrip at concrete addresses and params. -/
theorem C4_codec_roundtrip_witness :
    fromExtension (buildExtension addrC4 paramsC4) addrC4 = .ok paramsC4
    ∧ fromExtension (buildExtension addrC4 paramsC4) addrC4x = .error .AddressMismatch
    ∧ fromExtension (buildExtensionPacked addrC4 paramsC4) addrC4x
        = .error .AddressMismatch :=
  C4_codec_roundtrip addrC4 addrC4x paramsC4 (by decide) (by decide) (by decide)
    (by decide) (by decide) (by decide)

/-- C4 counterexample: the first (BytesBuilder) revision of
buildAmountGetterData packs 98 bytes, which the abi decoder of
fromExtension rejects for lack of five 32-byte head words, so the
build-then-decode round trip of that revision does not return the
params even with the correct expected address. -/
theorem C4_codec_roundtrip_counterexample :
    fromExtension (buildExtensionPacked addrC4 paramsC4) addrC4 = .error .OutOfBounds
    ∧ (Except.error CodecError.OutOfBounds : Except CodecError SpreadParams)
        ≠ .ok paramsC4 := by
  exact ⟨rfl, by simp⟩

